import Mathlib

/-!
Shallow embedding of the quantitative core of the mango-s-qqq-analyzer
repository: per-contract Greek/exposure processing, the gamma-flip
root-finder, the directional-probability model and recommendation bands
(src/unnamed/part_008), and the weighted-level aggregator and manual beta
estimator (src/api/index.ts).

Modelling conventions:
- JS numbers are modelled as exact rationals (ℚ); optional / possibly
  non-finite fields are `Option ℚ` (`none` stands for `undefined`/`NaN`).
- The external `@uqee/black-scholes` pricing library is modelled as an
  abstract oracle `bs : BSIn → Option BSOut`; `none` models a call that
  throws, and `BSOut.gamma : Option ℚ` models a possibly non-finite Greek
  (handled by `safeNum` in the source).
- `Math.exp` is an abstract parameter `rexp : ℚ → ℚ`; its value only feeds
  the oracle's `underlying` argument and never the results we reason about.
- `Math.round` is `⌊x + 1/2⌋`, exactly JavaScript's rounding on rationals.
- The wall-clock-dependent aggregator `calculateWeightedLevel` uses real
  arithmetic (`Real.sqrt` models `Math.sqrt`).
-/

namespace QQQ

/-- JavaScript `Math.round`: round half towards positive infinity. -/
def jsRound (x : ℚ) : ℤ := ⌊x + 1/2⌋

/-- Option side: `"call" | "put"` in the source. -/
inductive Side where
  | call
  | put
  deriving DecidableEq

/-- Argument record of `blackScholes.option({rate, sigma, strike, time, type, underlying})`. -/
structure BSIn where
  rate : ℚ
  sigma : ℚ
  strike : ℚ
  time : ℚ
  type : Side
  underlying : ℚ
  deriving DecidableEq

/-- Result record of `blackScholes.option`: a price and a (possibly
non-finite, hence `Option`) gamma. -/
structure BSOut where
  price : ℚ
  gamma : Option ℚ
  deriving DecidableEq

/-- The external pricing library, abstracted: `none` models a thrown
exception. -/
abbrev BSModel := BSIn → Option BSOut

/-- `RISK_FREE_RATE = 0.043` (src/unnamed/part_008 line 3). -/
def RISK_FREE_RATE : ℚ := 43/1000

/-- `DIVIDEND_YIELD = 0.006` (src/unnamed/part_008 line 4). -/
def DIVIDEND_YIELD : ℚ := 6/1000

/-- `IV_CLAMP_MIN = 0.0001` (src/unnamed/part_008 line 6). -/
def IV_CLAMP_MIN : ℚ := 1/10000

/-- `IV_CLAMP_MAX = 5.0` (src/unnamed/part_008 line 7). -/
def IV_CLAMP_MAX : ℚ := 5

/-- `safeNum` (src/unnamed/part_008 lines 44-46): a finite number passes
through, anything else becomes the fallback. -/
def safeNum (val : Option ℚ) (fallback : ℚ) : ℚ :=
  match val with
  | some v => v
  | none => fallback

/-- Raw option contract input (`OptionDataInput`, src/unnamed/part_008
lines 12-21). Fields that `processOption` never reads (`change`,
`percentChange`, `expiration`) are omitted; `impliedVolatility`,
`openInterest` and `volume` may be missing or non-finite, hence `Option ℚ`. -/
structure OptionDataInput where
  strike : ℚ
  impliedVolatility : Option ℚ
  openInterest : Option ℚ
  lastPrice : ℚ
  volume : Option ℚ
  deriving DecidableEq

/-- Processed contract (`ProcessedOption`, src/unnamed/part_008 lines 23-28),
restricted to the fields downstream code reads. -/
structure ProcessedOption where
  strike : ℚ
  impliedVolatility : ℚ
  openInterest : ℚ
  type : Side
  gamma : ℚ
  gex : ℚ
  deriving DecidableEq

/-- `{up, down, neutral}` returned by `calculatePriceProbabilities`
(integers after `Math.round`). -/
structure PriceProbability where
  up : ℤ
  down : ℤ
  neutral : ℤ
  deriving DecidableEq

/-- Models `Number(x)` as used in the `> 0` tests of `processOption`:
`Number(undefined)` is `NaN`, and both `NaN > 0` and `0 > 0` are false, so
mapping `none` to `0` is observationally exact there. -/
def numOr0 : Option ℚ → ℚ
  | none => 0
  | some v => v

/-- Effective open interest (src/unnamed/part_008 lines 127-132):
`Number(oi) > 0 ? round(oi) : Number(volume) > 0 ? round(volume*0.1) : 1`. -/
def effectiveOpenInterest (openInterest volume : Option ℚ) : ℚ :=
  if 0 < numOr0 openInterest then (jsRound (numOr0 openInterest) : ℚ)
  else if 0 < numOr0 volume then (jsRound (numOr0 volume * (1/10)) : ℚ)
  else 1

/-- `adjustedSpot = spotPrice * Math.exp(-DIVIDEND_YIELD * timeToExpiration)`
(src/unnamed/part_008 line 134), with `Math.exp` abstract. -/
def adjustedSpotOf (rexp : ℚ → ℚ) (spotPrice timeToExpiration : ℚ) : ℚ :=
  spotPrice * rexp (-DIVIDEND_YIELD * timeToExpiration)

/-- Newton-Raphson loop body of `calculateImpliedVolatility`
(src/unnamed/part_008 lines 94-115), fuel-indexed. The uncaught library
calls propagate failure (`none`). Loop exhaustion and the small-vega
`break` both return the current `sigma`. -/
def ivLoop (bs : BSModel) (targetPrice strike time : ℚ) (type : Side)
    (underlying rate : ℚ) : Nat → ℚ → Option ℚ
  | 0, sigma => some sigma
  | Nat.succ fuel, sigma =>
    match bs ⟨rate, sigma, strike, time, type, underlying⟩ with
    | none => none
    | some result =>
      let diff := result.price - targetPrice
      if |diff| < 1/10000 then some sigma
      else
        match bs ⟨rate, sigma + 1/1000, strike, time, type, underlying⟩ with
        | none => none
        | some resultNext =>
          let vega := (resultNext.price - result.price) / (1/1000)
          if |vega| < 1/100000 then some sigma
          else
            let nextSigma := sigma - diff / vega
            let nextSigma := if nextSigma ≤ 0 then 1/10000 else nextSigma
            let nextSigma := if nextSigma > 5 then 5 else nextSigma
            ivLoop bs targetPrice strike time type underlying rate fuel nextSigma

/-- `calculateImpliedVolatility` (src/unnamed/part_008 lines 80-118):
initial guess 0.2, at most 20 iterations. -/
def calculateImpliedVolatility (bs : BSModel) (targetPrice strike time : ℚ)
    (type : Side) (underlying rate : ℚ) : Option ℚ :=
  ivLoop bs targetPrice strike time type underlying rate 20 (1/5)

/-- The implied volatility `processOption` resolves before clamping
(src/unnamed/part_008 lines 135-148): a reported finite IV ≥ 0.001 is used
as is, otherwise it is inverted from the last price. -/
def resolvedIV (bs : BSModel) (rexp : ℚ → ℚ) (option : OptionDataInput)
    (type : Side) (spotPrice timeToExpiration : ℚ) : Option ℚ :=
  match option.impliedVolatility with
  | some v =>
    if v < 1/1000 then
      calculateImpliedVolatility bs option.lastPrice option.strike
        (max timeToExpiration (1/10000)) type
        (adjustedSpotOf rexp spotPrice timeToExpiration) RISK_FREE_RATE
    else some v
  | none =>
    calculateImpliedVolatility bs option.lastPrice option.strike
      (max timeToExpiration (1/10000)) type
      (adjustedSpotOf rexp spotPrice timeToExpiration) RISK_FREE_RATE

/-- The final IV clamp (src/unnamed/part_008 lines 150-153). -/
def clampIV (v : ℚ) : ℚ := max IV_CLAMP_MIN (min IV_CLAMP_MAX v)

/-- The contract's final clamped implied volatility (the value stored in
the returned `ProcessedOption`), or `none` when IV inversion failed. -/
def clampedIV (bs : BSModel) (rexp : ℚ → ℚ) (option : OptionDataInput)
    (type : Side) (spotPrice timeToExpiration : ℚ) : Option ℚ :=
  (resolvedIV bs rexp option type spotPrice timeToExpiration).map clampIV

/-- The volatility argument `processOption` hands to the pricing model for
its Gamma: `greekSigma = Math.max(0.1, impliedVolatility)`
(src/unnamed/part_008 line 155). -/
def greekSigmaOf (bs : BSModel) (rexp : ℚ → ℚ) (option : OptionDataInput)
    (type : Side) (spotPrice timeToExpiration : ℚ) : Option ℚ :=
  (clampedIV bs rexp option type spotPrice timeToExpiration).map
    (fun iv => max (1/10) iv)

/-- The argument record of the Gamma pricing call inside `processOption`
(src/unnamed/part_008 lines 159-166). -/
def gammaQuery (rexp : ℚ → ℚ) (option : OptionDataInput) (type : Side)
    (spotPrice timeToExpiration sigma : ℚ) : BSIn :=
  ⟨RISK_FREE_RATE, sigma, option.strike, max timeToExpiration (1/10000),
    type, adjustedSpotOf rexp spotPrice timeToExpiration⟩

/-- Sign of a side in the exposure formula: calls +1, puts −1. -/
def sideSign : Side → ℚ
  | Side.call => 1
  | Side.put => -1

/-- The successful tail of `processOption` (src/unnamed/part_008 lines
155-191), given the already resolved and clamped implied volatility: the
try/catch around the Gamma pricing call maps a library failure to
`gamma = 0`. The outer `safeNum` around the exposure product is the
identity on rationals and is therefore not repeated here. -/
def processOptionOk (bs : BSModel) (rexp : ℚ → ℚ) (option : OptionDataInput)
    (type : Side) (spotPrice timeToExpiration impliedVolatility : ℚ) :
    ProcessedOption :=
  let openInterest := effectiveOpenInterest option.openInterest option.volume
  let greekSigma := max (1/10) impliedVolatility
  let gamma : ℚ :=
    match bs (gammaQuery rexp option type spotPrice timeToExpiration greekSigma) with
    | none => 0
    | some result => |safeNum result.gamma 0|
  let gammaExposure :=
    sideSign type * gamma * openInterest * 100 *
      (spotPrice * spotPrice) * (1/100)
  ⟨option.strike, impliedVolatility, openInterest, type, gamma, gammaExposure⟩

/-- `processOption` (src/unnamed/part_008 lines 120-192). A library
failure inside the (uncaught) `calculateImpliedVolatility` call propagates
as `Except.error`; every other path succeeds with `processOptionOk`. -/
def processOption (bs : BSModel) (rexp : ℚ → ℚ) (option : OptionDataInput)
    (type : Side) (spotPrice timeToExpiration : ℚ) :
    Except Unit ProcessedOption :=
  match clampedIV bs rexp option type spotPrice timeToExpiration with
  | none => Except.error ()
  | some impliedVolatility =>
    Except.ok
      (processOptionOk bs rexp option type spotPrice timeToExpiration
        impliedVolatility)

/-- `calculateNetGexAtSpot` (src/unnamed/part_008 lines 194-230): per-option
try/catch skips a failing contract (`none` from the oracle contributes
nothing). The `typeof/isFinite` guard on a processed contract's stored IV
is always satisfied in the rational model, leaving `max 0.1 iv`; the
`(opt.openInterest || 0)` coercion is the identity on rationals. -/
def calculateNetGexAtSpot (bs : BSModel) (rexp : ℚ → ℚ)
    (options : List ProcessedOption) (spot time : ℚ) : ℚ :=
  options.foldl (fun acc opt =>
    let adjustedSpot := spot * rexp (-DIVIDEND_YIELD * time)
    let sigma := max (1/10) opt.impliedVolatility
    match bs ⟨RISK_FREE_RATE, sigma, opt.strike, max time (1/10000),
        opt.type, adjustedSpot⟩ with
    | none => acc
    | some result =>
      let gamma := |safeNum result.gamma 0|
      let gex := sideSign opt.type * gamma * opt.openInterest * 100 *
        (spot * spot) * (1/100)
      acc + gex) 0

/-- Binary-search loop of `findTrueGammaFlip` (src/unnamed/part_008 lines
250-263), fuel-indexed over an abstract net-exposure function `g`. Note
that the source compares against the *initial* `gexLow` in every
iteration, so it is a fixed parameter here too. -/
def flipLoop (g : ℚ → ℚ) (gexLow : ℚ) : Nat → ℚ → ℚ → ℚ
  | 0, low, high => (low + high) / 2
  | Nat.succ fuel, low, high =>
    let mid := (low + high) / 2
    let gexMid := g mid
    if |gexMid| < 1/10 then mid
    else if gexLow * gexMid ≤ 0 then flipLoop g gexLow fuel low mid
    else flipLoop g gexLow fuel mid high

/-- `findTrueGammaFlip` (src/unnamed/part_008 lines 232-264): ±10% scan
window, same-sign early return, then a 15-iteration binary search. -/
def findTrueGammaFlip (bs : BSModel) (rexp : ℚ → ℚ)
    (options : List ProcessedOption) (currentSpot time : ℚ) : ℚ :=
  if options = [] then currentSpot
  else
    let scanRange : ℚ := 1/10
    let low := currentSpot * (1 - scanRange)
    let high := currentSpot * (1 + scanRange)
    let gexLow := calculateNetGexAtSpot bs rexp options low time
    let gexHigh := calculateNetGexAtSpot bs rexp options high time
    if gexLow * gexHigh > 0 then
      if |gexLow| < |gexHigh| then low else high
    else
      flipLoop (fun s => calculateNetGexAtSpot bs rexp options s time)
        gexLow 15 low high

/-- `totalCallEnergy` accumulator (src/unnamed/part_008 lines 283-286). -/
def totalCallEnergy (calls : List ProcessedOption) : ℚ :=
  calls.foldl (fun acc opt => acc + max 0 opt.gex) 0

/-- `totalPutEnergy` accumulator (src/unnamed/part_008 lines 287-290). -/
def totalPutEnergy (puts : List ProcessedOption) : ℚ :=
  puts.foldl (fun acc opt => acc + |min 0 opt.gex|) 0

/-- The `(upProb, downProb, neutralProb)` triple of
`calculatePriceProbabilities` before rounding (src/unnamed/part_008 lines
293-323): the energy branch, the open-interest fallback branch, and the
default `(50, 50, 0)`. -/
def probTriple (calls puts : List ProcessedOption)
    (filteredCallOI filteredPutOI : ℚ) : ℚ × ℚ × ℚ :=
  let totalEnergy := totalCallEnergy calls + totalPutEnergy puts
  if totalEnergy > 1/10000 then
    let rawUpProb := totalCallEnergy calls / totalEnergy * 100
    let rawDownProb := totalPutEnergy puts / totalEnergy * 100
    let neutralProb := max 15 (100 - |rawUpProb - rawDownProb| * (12/10) - 10)
    let remaining := 100 - neutralProb
    let r := rawUpProb / (rawUpProb + rawDownProb)
    let upProb := min 80 (remaining * r)
    let downProb := min 80 (remaining * (1 - r))
    (upProb, downProb, 100 - upProb - downProb)
  else if filteredCallOI + filteredPutOI > 0 then
    let totalOI := filteredCallOI + filteredPutOI
    let upProb0 := filteredCallOI / totalOI * 100
    let downProb0 := filteredPutOI / totalOI * 100
    let neutralProb : ℚ := 15
    let remaining := 100 - neutralProb
    let r := upProb0 / (upProb0 + downProb0)
    let upProb := min 80 (remaining * r)
    let downProb := min 80 (remaining * (1 - r))
    (upProb, downProb, 100 - upProb - downProb)
  else (50, 50, 0)

/-- `calculatePriceProbabilities` (src/unnamed/part_008 lines 272-330):
the pre-rounding triple, each component rounded with `Math.round`. -/
def calculatePriceProbabilities (calls puts : List ProcessedOption)
    (filteredCallOI filteredPutOI : ℚ) : PriceProbability :=
  let p := probTriple calls puts filteredCallOI filteredPutOI
  ⟨jsRound p.1, jsRound p.2.1, jsRound p.2.2⟩

/-- One recommendation band (src/unnamed/part_008 lines 36-42). -/
structure Recommendation where
  status : String
  description : String
  min : ℚ
  max : ℚ
  color : String
  deriving DecidableEq

/-- The `(low, high)` pair after ordering support/resistance and enforcing
the minimum width `currentPrice * 0.02` (src/unnamed/part_008 lines
370-378). -/
def recNormalize (support resistance currentPrice : ℚ) : ℚ × ℚ :=
  let low := min support resistance
  let high := max support resistance
  let minWidth := currentPrice * (2/100)
  if high - low < minWidth then
    let center := (low + high) / 2
    (center - minWidth / 2, center + minWidth / 2)
  else (low, high)

/-- `generateRecommendations` (src/unnamed/part_008 lines 365-432): six
bands built from the normalized `(low, high)` pair. -/
def generateRecommendations (support resistance currentPrice : ℚ) :
    List Recommendation :=
  let low := (recNormalize support resistance currentPrice).1
  let high := (recNormalize support resistance currentPrice).2
  let mid := (low + high) / 2
  let range := high - low
  let neutralStart := mid - range * (1/10)
  let neutralEnd := mid + range * (1/10)
  let panicLevel := low * (97/100)
  [⟨"Extreme Risk", "Support breakdown: panic risk zone (avoid / wait for base)",
      0, panicLevel, "#475569"⟩,
    ⟨"Strong Buy", "Oversold near support: staged accumulation zone",
      panicLevel, low, "#22c55e"⟩,
    ⟨"Buy", "Support to lower neutral: staged buy zone",
      low, neutralStart, "#86efac"⟩,
    ⟨"Neutral", "Mid range: wait / hold zone",
      neutralStart, neutralEnd, "#94a3b8"⟩,
    ⟨"Sell", "Upper neutral to resistance: staged sell zone",
      neutralEnd, high, "#fca5a5"⟩,
    ⟨"Strong Sell", "Above resistance: overheating sell zone",
      high, high + 20, "#ef4444"⟩]

/-- Band membership used to read the claim "every positive price lies in
exactly one band": half-open `[min, max)` intervals, so that adjacent
bands sharing a boundary stay disjoint. -/
def inBand (p : ℚ) (b : Recommendation) : Bool :=
  decide (b.min ≤ p ∧ p < b.max)

/-- `calculateWeightedLevel` (src/api/index.ts lines 596-615) over the
reals: an item is `(expiration epoch milliseconds, level value)`, `nowTs`
is `dayjs().tz("America/New_York").valueOf()` — the wall-clock time of the
run — and the weight is `1 / Math.sqrt(max(yearsToExpiry, 1/365))`. The
accumulator pair is `(wSum, vSum)` and the result `vSum / wSum`. -/
noncomputable def calculateWeightedLevel (nowTs : ℝ) (items : List (ℝ × ℝ)) : ℝ :=
  let sums := items.foldl (fun (acc : ℝ × ℝ) r =>
    let t := max ((r.1 - nowTs) / (1000 * 60 * 60 * 24 * 365)) (1/365)
    let w := 1 / Real.sqrt t
    (acc.1 + w, acc.2 + r.2 * w)) (0, 0)
  sums.2 / sums.1

/-- A per-expiration snapshot list with every expiration timestamp shifted
by `d` milliseconds (levels untouched). -/
def shiftItems (d : ℝ) (items : List (ℝ × ℝ)) : List (ℝ × ℝ) :=
  items.map (fun r => (r.1 + d, r.2))

/-- Daily returns of a price series (src/api/index.ts lines 106-115):
`(p_i − p_{i−1}) / p_{i−1}`. -/
def returnsOf (l : List ℚ) : List ℚ :=
  (l.zip l.tail).map (fun p => (p.2 - p.1) / p.1)

/-- Mean of a list of returns (`reduce((a,b) => a+b, 0) / length`). -/
def avgOf (l : List ℚ) : ℚ := l.sum / (l.length : ℚ)

/-- The `(covariance, varianceB)` accumulation loop of `calculateManualBeta`
(src/api/index.ts lines 123-131), indexed over the paired return series. -/
def betaSums (commonData : List (ℚ × ℚ)) : ℚ × ℚ :=
  let tickerReturns := returnsOf (commonData.map Prod.fst)
  let benchmarkReturns := returnsOf (commonData.map Prod.snd)
  let avgB := avgOf benchmarkReturns
  let avgT := avgOf tickerReturns
  (tickerReturns.zip benchmarkReturns).foldl (fun acc p =>
    (acc.1 + (p.2 - avgB) * (p.1 - avgT), acc.2 + (p.2 - avgB) * (p.2 - avgB)))
    (0, 0)

/-- `calculateManualBeta` from the aligned `commonData` pairs onward
(src/api/index.ts lines 100-133): fewer than 10 overlapping observations
or a zero benchmark variance give the neutral default 1.0, otherwise
covariance / variance. -/
def calculateManualBeta (commonData : List (ℚ × ℚ)) : ℚ :=
  if commonData.length < 10 then 1
  else
    let sums := betaSums commonData
    if sums.2 = 0 then 1 else sums.1 / sums.2

theorem jsRound_gt (x : ℚ) : x - 1/2 < (jsRound x : ℚ) := by
  unfold jsRound
  have h := Int.sub_one_lt_floor (x + 1/2)
  linarith

theorem jsRound_le (x : ℚ) : (jsRound x : ℚ) ≤ x + 1/2 := Int.floor_le _

theorem probTriple_sum (calls puts : List ProcessedOption)
    (filteredCallOI filteredPutOI : ℚ) :
    (probTriple calls puts filteredCallOI filteredPutOI).1 +
      (probTriple calls puts filteredCallOI filteredPutOI).2.1 +
      (probTriple calls puts filteredCallOI filteredPutOI).2.2 = 100 := by
  unfold probTriple
  by_cases hA : totalCallEnergy calls + totalPutEnergy puts > 1/10000
  · rw [if_pos hA]
    dsimp only
    ring
  · rw [if_neg hA]
    by_cases hB : filteredCallOI + filteredPutOI > 0
    · rw [if_pos hB]
      dsimp only
      ring
    · rw [if_neg hB]
      norm_num

/-- C1: FALSIFIED as stated. With one call of exposure 71 and one put of
exposure −29 the energy branch yields the pre-rounding triple
(42.884, 17.516, 39.6), which rounds to 43 + 18 + 40 = 101 ≠ 100. -/
theorem probability_sum_counterexample :
    (calculatePriceProbabilities [⟨400, 1/5, 1, Side.call, 0, 71⟩]
        [⟨390, 1/5, 1, Side.put, 0, -29⟩] 0 0).up +
      (calculatePriceProbabilities [⟨400, 1/5, 1, Side.call, 0, 71⟩]
        [⟨390, 1/5, 1, Side.put, 0, -29⟩] 0 0).down +
      (calculatePriceProbabilities [⟨400, 1/5, 1, Side.call, 0, 71⟩]
        [⟨390, 1/5, 1, Side.put, 0, -29⟩] 0 0).neutral = 101 ∧
    (101 : ℤ) ≠ 100 := by
  constructor
  · norm_num [calculatePriceProbabilities, probTriple, totalCallEnergy,
      totalPutEnergy, jsRound]
  · decide

/-- C1 (amended): for every invocation of `calculatePriceProbabilities`
the three returned integers sum to a value within 1 of 100 (the
pre-rounding triple sums to exactly 100 in all three branches, and the
three independent `Math.round` calls can shift the sum by at most 1). -/
theorem probability_sum_within_one (calls puts : List ProcessedOption)
    (filteredCallOI filteredPutOI : ℚ) :
    99 ≤ (calculatePriceProbabilities calls puts filteredCallOI filteredPutOI).up +
        (calculatePriceProbabilities calls puts filteredCallOI filteredPutOI).down +
        (calculatePriceProbabilities calls puts filteredCallOI filteredPutOI).neutral ∧
      (calculatePriceProbabilities calls puts filteredCallOI filteredPutOI).up +
        (calculatePriceProbabilities calls puts filteredCallOI filteredPutOI).down +
        (calculatePriceProbabilities calls puts filteredCallOI filteredPutOI).neutral ≤ 101 := by
  have hsum := probTriple_sum calls puts filteredCallOI filteredPutOI
  have g1 := jsRound_gt (probTriple calls puts filteredCallOI filteredPutOI).1
  have g2 := jsRound_gt (probTriple calls puts filteredCallOI filteredPutOI).2.1
  have g3 := jsRound_gt (probTriple calls puts filteredCallOI filteredPutOI).2.2
  have l1 := jsRound_le (probTriple calls puts filteredCallOI filteredPutOI).1
  have l2 := jsRound_le (probTriple calls puts filteredCallOI filteredPutOI).2.1
  have l3 := jsRound_le (probTriple calls puts filteredCallOI filteredPutOI).2.2
  show 99 ≤ jsRound (probTriple calls puts filteredCallOI filteredPutOI).1 +
      jsRound (probTriple calls puts filteredCallOI filteredPutOI).2.1 +
      jsRound (probTriple calls puts filteredCallOI filteredPutOI).2.2 ∧
    jsRound (probTriple calls puts filteredCallOI filteredPutOI).1 +
      jsRound (probTriple calls puts filteredCallOI filteredPutOI).2.1 +
      jsRound (probTriple calls puts filteredCallOI filteredPutOI).2.2 ≤ 101
  constructor
  · have hq : (98 : ℚ) <
        ((jsRound (probTriple calls puts filteredCallOI filteredPutOI).1 +
          jsRound (probTriple calls puts filteredCallOI filteredPutOI).2.1 +
          jsRound (probTriple calls puts filteredCallOI filteredPutOI).2.2 : ℤ) : ℚ) := by
      push_cast
      linarith
    have hz : (98 : ℤ) <
        jsRound (probTriple calls puts filteredCallOI filteredPutOI).1 +
          jsRound (probTriple calls puts filteredCallOI filteredPutOI).2.1 +
          jsRound (probTriple calls puts filteredCallOI filteredPutOI).2.2 := by
      exact_mod_cast hq
    omega
  · have hq : ((jsRound (probTriple calls puts filteredCallOI filteredPutOI).1 +
          jsRound (probTriple calls puts filteredCallOI filteredPutOI).2.1 +
          jsRound (probTriple calls puts filteredCallOI filteredPutOI).2.2 : ℤ) : ℚ) <
        (102 : ℚ) := by
      push_cast
      linarith
    have hz : (jsRound (probTriple calls puts filteredCallOI filteredPutOI).1 +
          jsRound (probTriple calls puts filteredCallOI filteredPutOI).2.1 +
          jsRound (probTriple calls puts filteredCallOI filteredPutOI).2.2 : ℤ) < 102 := by
      exact_mod_cast hq
    omega

/-- C9: when total gamma energy is ≤ 1e-4 and the filtered open-interest
totals sum to zero, both branches of `calculatePriceProbabilities` are
skipped and the default {up 50, down 50, neutral 0} is returned (the
neutral floor of 15 never applies). -/
theorem degenerate_probabilities_default (calls puts : List ProcessedOption)
    (filteredCallOI filteredPutOI : ℚ)
    (henergy : totalCallEnergy calls + totalPutEnergy puts ≤ 1/10000)
    (hoi : filteredCallOI + filteredPutOI = 0) :
    calculatePriceProbabilities calls puts filteredCallOI filteredPutOI =
      ⟨50, 50, 0⟩ := by
  have h1 : ¬ (totalCallEnergy calls + totalPutEnergy puts > 1/10000) :=
    not_lt.mpr henergy
  have h2 : ¬ (filteredCallOI + filteredPutOI > 0) := by
    rw [hoi]
    exact lt_irrefl 0
  simp only [calculatePriceProbabilities, probTriple]
  rw [if_neg h1, if_neg h2]
  norm_num [jsRound]

/-- C9 witness: the empty contract set with zero open-interest totals. -/
theorem degenerate_probabilities_default_witness :
    totalCallEnergy [] + totalPutEnergy [] ≤ 1/10000 ∧
      calculatePriceProbabilities [] [] 0 0 = ⟨50, 50, 0⟩ :=
  ⟨by norm_num [totalCallEnergy, totalPutEnergy],
    degenerate_probabilities_default [] [] 0 0
      (by norm_num [totalCallEnergy, totalPutEnergy]) (by norm_num)⟩

theorem processOption_ok_iff (bs : BSModel) (rexp : ℚ → ℚ)
    (option : OptionDataInput) (type : Side) (spotPrice timeToExpiration : ℚ)
    (r : ProcessedOption) :
    processOption bs rexp option type spotPrice timeToExpiration = Except.ok r ↔
      ∃ iv, clampedIV bs rexp option type spotPrice timeToExpiration = some iv ∧
        r = processOptionOk bs rexp option type spotPrice timeToExpiration iv := by
  unfold processOption
  cases h : clampedIV bs rexp option type spotPrice timeToExpiration with
  | none => simp
  | some iv => simp [eq_comm]

theorem effectiveOpenInterest_nonneg (openInterest volume : Option ℚ) :
    0 ≤ effectiveOpenInterest openInterest volume := by
  unfold effectiveOpenInterest
  split_ifs with h1 h2
  · have h : (0 : ℤ) ≤ jsRound (numOr0 openInterest) := by
      unfold jsRound
      refine Int.le_floor.mpr ?_
      push_cast
      linarith
    exact_mod_cast h
  · have h : (0 : ℤ) ≤ jsRound (numOr0 volume * (1/10)) := by
      unfold jsRound
      refine Int.le_floor.mpr ?_
      push_cast
      linarith
    exact_mod_cast h
  · norm_num

/-- C2: FALSIFIED as stated. A contract with reported open interest 0 and
volume 4 gets effective open interest `Math.round(4 × 0.1) = 0`, not 1:
the substitute-1 branch fires only when volume itself is missing or ≤ 0,
so the promised `≥ 1` floor does not hold. -/
theorem effective_open_interest_counterexample :
    (processOption (fun _ => some ⟨0, some 1⟩) (fun _ => 1)
        ⟨400, some (1/5), some 0, 5, some 4⟩ Side.call 400 (1/10)).toOption.map
      ProcessedOption.openInterest = some 0 ∧
    ¬ (1 : ℚ) ≤ 0 := by
  constructor
  · norm_num [processOption, processOptionOk, clampedIV, resolvedIV, clampIV,
      effectiveOpenInterest, numOr0, jsRound, IV_CLAMP_MIN, IV_CLAMP_MAX,
      Except.toOption]
  · norm_num

/-- C2 (amended): when reported open interest is missing or ≤ 0, the
effective open interest is `round(volume × 0.1)` if volume > 0 and 1 only
when volume is also missing or ≤ 0; the result is always ≥ 0 (but can be
0 when 0 < volume < 5). -/
theorem effective_open_interest_fallback (bs : BSModel) (rexp : ℚ → ℚ)
    (option : OptionDataInput) (type : Side) (spotPrice timeToExpiration : ℚ)
    (r : ProcessedOption)
    (hok : processOption bs rexp option type spotPrice timeToExpiration =
      Except.ok r) :
    r.openInterest = effectiveOpenInterest option.openInterest option.volume ∧
    0 ≤ r.openInterest ∧
    (¬ 0 < numOr0 option.openInterest → ¬ 0 < numOr0 option.volume →
      r.openInterest = 1) ∧
    (¬ 0 < numOr0 option.openInterest → 0 < numOr0 option.volume →
      r.openInterest = (jsRound (numOr0 option.volume * (1/10)) : ℚ)) := by
  obtain ⟨iv, hc, hr⟩ :=
    (processOption_ok_iff bs rexp option type spotPrice timeToExpiration r).mp hok
  subst hr
  refine ⟨rfl, ?_, ?_, ?_⟩
  · exact effectiveOpenInterest_nonneg option.openInterest option.volume
  · intro hnoOI hnoVol
    show effectiveOpenInterest option.openInterest option.volume = 1
    unfold effectiveOpenInterest
    rw [if_neg hnoOI, if_neg hnoVol]
  · intro hnoOI hVol
    show effectiveOpenInterest option.openInterest option.volume =
      (jsRound (numOr0 option.volume * (1/10)) : ℚ)
    unfold effectiveOpenInterest
    rw [if_neg hnoOI, if_pos hVol]

/-- C2 witness: a contract with reported open interest 100 and volume 10. -/
theorem effective_open_interest_fallback_witness :
    (processOptionOk (fun _ => some ⟨0, some 1⟩) (fun _ => 1)
        ⟨400, some (1/5), some 100, 5, some 10⟩ Side.call 400 (1/10)
        (1/5)).openInterest =
      effectiveOpenInterest (some 100) (some 10) ∧
    0 ≤ (processOptionOk (fun _ => some ⟨0, some 1⟩) (fun _ => 1)
        ⟨400, some (1/5), some 100, 5, some 10⟩ Side.call 400 (1/10)
        (1/5)).openInterest ∧
    (¬ 0 < numOr0 (some (100 : ℚ)) → ¬ 0 < numOr0 (some (10 : ℚ)) →
      (processOptionOk (fun _ => some ⟨0, some 1⟩) (fun _ => 1)
        ⟨400, some (1/5), some 100, 5, some 10⟩ Side.call 400 (1/10)
        (1/5)).openInterest = 1) ∧
    (¬ 0 < numOr0 (some (100 : ℚ)) → 0 < numOr0 (some (10 : ℚ)) →
      (processOptionOk (fun _ => some ⟨0, some 1⟩) (fun _ => 1)
        ⟨400, some (1/5), some 100, 5, some 10⟩ Side.call 400 (1/10)
        (1/5)).openInterest = (jsRound (numOr0 (some (10 : ℚ)) * (1/10)) : ℚ)) :=
  effective_open_interest_fallback (fun _ => some ⟨0, some 1⟩) (fun _ => 1)
    ⟨400, some (1/5), some 100, 5, some 10⟩ Side.call 400 (1/10) _
    (by norm_num [processOption, clampedIV, resolvedIV, clampIV,
      IV_CLAMP_MIN, IV_CLAMP_MAX])

theorem calculateImpliedVolatility_fail (targetPrice strike time : ℚ)
    (type : Side) (underlying rate : ℚ) :
    calculateImpliedVolatility (fun _ => none) targetPrice strike time type
      underlying rate = none := rfl

/-- C4: FALSIFIED as stated. When the pricing library fails (modelled by
the always-throwing oracle) and the reported IV is invalid (here 0, which
forces the Newton-Raphson inversion), the failure happens inside
`calculateImpliedVolatility`, which `processOption` does not guard, so the
error propagates out of `processOption` instead of being contained. -/
theorem processOption_error_propagates :
    processOption (fun _ => none) (fun _ => 1)
      ⟨400, some 0, some 100, 5, some 10⟩ Side.call 400 (1/10) =
      Except.error () := by
  have hres : resolvedIV (fun _ => none) (fun _ => 1)
      ⟨400, some 0, some 100, 5, some 10⟩ Side.call 400 (1/10) = none := by
    unfold resolvedIV
    dsimp only
    rw [if_pos (by norm_num)]
    exact calculateImpliedVolatility_fail _ _ _ _ _ _
  unfold processOption clampedIV
  rw [hres]
  rfl

/-- C4 (amended): when the reported IV is a finite number ≥ 0.001 the
inversion is skipped and `processOption` always succeeds; a pricing-model
failure at the (guarded) Gamma call is contained as gamma = 0 and
exposure = 0. Only a failure inside the unguarded IV inversion can
escape. -/
theorem processOption_gamma_failure_contained (bs : BSModel) (rexp : ℚ → ℚ)
    (option : OptionDataInput) (type : Side) (spotPrice timeToExpiration v : ℚ)
    (hiv : option.impliedVolatility = some v) (hvalid : ¬ v < 1/1000) :
    ∃ r, processOption bs rexp option type spotPrice timeToExpiration =
        Except.ok r ∧
      r.impliedVolatility = clampIV v ∧
      (bs (gammaQuery rexp option type spotPrice timeToExpiration
          (max (1/10) (clampIV v))) = none → r.gamma = 0 ∧ r.gex = 0) := by
  have hc : clampedIV bs rexp option type spotPrice timeToExpiration =
      some (clampIV v) := by
    unfold clampedIV resolvedIV
    rw [hiv]
    dsimp only
    rw [if_neg hvalid]
    rfl
  refine ⟨processOptionOk bs rexp option type spotPrice timeToExpiration
    (clampIV v), ?_, rfl, ?_⟩
  · unfold processOption
    rw [hc]
  · intro hnone
    unfold processOptionOk
    simp only [hnone]
    constructor
    · trivial
    · show sideSign type * 0 *
        effectiveOpenInterest option.openInterest option.volume * 100 *
        (spotPrice * spotPrice) * (1/100) = 0
      ring

/-- C4 witness: a valid reported IV of 0.2 with the always-failing
oracle: processOption still succeeds, and the contained Gamma failure
yields gamma = 0 and exposure = 0. -/
theorem processOption_gamma_failure_contained_witness :
    ∃ r, processOption (fun _ => none) (fun _ => 1)
        ⟨400, some (1/5), some 100, 5, some 10⟩ Side.call 400 (1/10) =
        Except.ok r ∧
      r.impliedVolatility = clampIV (1/5) ∧
      ((fun _ => none : BSModel) (gammaQuery (fun _ => 1)
          ⟨400, some (1/5), some 100, 5, some 10⟩ Side.call 400 (1/10)
          (max (1/10) (clampIV (1/5)))) = none → r.gamma = 0 ∧ r.gex = 0) :=
  processOption_gamma_failure_contained (fun _ => none) (fun _ => 1)
    ⟨400, some (1/5), some 100, 5, some 10⟩ Side.call 400 (1/10) (1/5)
    rfl (by norm_num)

/-- C6: FALSIFIED as stated. For a contract with reported IV 0.05 the
returned `impliedVolatility` is 0.05 (the clamp into [0.0001, 5] keeps
it), but the Gamma pricing call is made at
`greekSigma = max(0.1, 0.05) = 0.1 ≠ 0.05`. -/
theorem greek_sigma_counterexample :
    (processOption (fun _ => some ⟨0, some 1⟩) (fun _ => 1)
        ⟨400, some (1/20), some 100, 5, some 10⟩ Side.call 400
        (1/10)).toOption.map ProcessedOption.impliedVolatility =
      some (1/20) ∧
    greekSigmaOf (fun _ => some ⟨0, some 1⟩) (fun _ => 1)
        ⟨400, some (1/20), some 100, 5, some 10⟩ Side.call 400 (1/10) =
      some (1/10) ∧
    (1/10 : ℚ) ≠ 1/20 := by
  refine ⟨?_, ?_, by norm_num⟩
  · norm_num [processOption, processOptionOk, clampedIV, resolvedIV, clampIV,
      IV_CLAMP_MIN, IV_CLAMP_MAX, Except.toOption]
  · norm_num [greekSigmaOf, clampedIV, resolvedIV, clampIV,
      IV_CLAMP_MIN, IV_CLAMP_MAX]

/-- C6 (amended): the volatility at which Gamma is evaluated is
`max(0.1, clampedIV)`; it equals the contract's returned implied
volatility exactly when the clamped IV is at least 0.1. -/
theorem greek_sigma_floored (bs : BSModel) (rexp : ℚ → ℚ)
    (option : OptionDataInput) (type : Side) (spotPrice timeToExpiration : ℚ)
    (r : ProcessedOption)
    (hok : processOption bs rexp option type spotPrice timeToExpiration =
      Except.ok r) :
    greekSigmaOf bs rexp option type spotPrice timeToExpiration =
      some (max (1/10) r.impliedVolatility) ∧
    (1/10 ≤ r.impliedVolatility →
      greekSigmaOf bs rexp option type spotPrice timeToExpiration =
        some r.impliedVolatility) := by
  obtain ⟨iv, hc, hr⟩ :=
    (processOption_ok_iff bs rexp option type spotPrice timeToExpiration r).mp hok
  have hiv : r.impliedVolatility = iv := by
    rw [hr]
    simp [processOptionOk]
  constructor
  · unfold greekSigmaOf
    rw [hc, hiv]
    rfl
  · intro h10
    unfold greekSigmaOf
    rw [hc]
    have hmax : max (1/10 : ℚ) iv = iv := max_eq_right (hiv ▸ h10)
    show some (max (1/10) iv) = some r.impliedVolatility
    rw [hmax, hiv]

/-- C6 witness: reported IV 0.2 ≥ 0.1, where the Gamma volatility and the
returned implied volatility agree. -/
theorem greek_sigma_floored_witness :
    greekSigmaOf (fun _ => some ⟨0, some 1⟩) (fun _ => 1)
        ⟨400, some (1/5), some 100, 5, some 10⟩ Side.call 400 (1/10) =
      some (max (1/10)
        (processOptionOk (fun _ => some ⟨0, some 1⟩) (fun _ => 1)
          ⟨400, some (1/5), some 100, 5, some 10⟩ Side.call 400 (1/10)
          (1/5)).impliedVolatility) ∧
    (1/10 ≤ (processOptionOk (fun _ => some ⟨0, some 1⟩) (fun _ => 1)
        ⟨400, some (1/5), some 100, 5, some 10⟩ Side.call 400 (1/10)
        (1/5)).impliedVolatility →
      greekSigmaOf (fun _ => some ⟨0, some 1⟩) (fun _ => 1)
          ⟨400, some (1/5), some 100, 5, some 10⟩ Side.call 400 (1/10) =
        some (processOptionOk (fun _ => some ⟨0, some 1⟩) (fun _ => 1)
          ⟨400, some (1/5), some 100, 5, some 10⟩ Side.call 400 (1/10)
          (1/5)).impliedVolatility) :=
  greek_sigma_floored (fun _ => some ⟨0, some 1⟩) (fun _ => 1)
    ⟨400, some (1/5), some 100, 5, some 10⟩ Side.call 400 (1/10) _
    (by norm_num [processOption, clampedIV, resolvedIV, clampIV,
      IV_CLAMP_MIN, IV_CLAMP_MAX])

/-- C5: when the net exposures at the two scan bounds (spot × 0.9 and
spot × 1.1) have the same strict sign (positive product), the root-finder
returns the bound with the smaller absolute exposure without entering the
binary-search loop. -/
theorem gammaFlip_same_sign_early_return (bs : BSModel) (rexp : ℚ → ℚ)
    (options : List ProcessedOption) (currentSpot time : ℚ)
    (hne : options ≠ [])
    (hsign : calculateNetGexAtSpot bs rexp options (currentSpot * (1 - 1/10)) time *
      calculateNetGexAtSpot bs rexp options (currentSpot * (1 + 1/10)) time > 0) :
    findTrueGammaFlip bs rexp options currentSpot time =
      if |calculateNetGexAtSpot bs rexp options (currentSpot * (1 - 1/10)) time| <
          |calculateNetGexAtSpot bs rexp options (currentSpot * (1 + 1/10)) time|
      then currentSpot * (1 - 1/10) else currentSpot * (1 + 1/10) := by
  unfold findTrueGammaFlip
  rw [if_neg hne]
  dsimp only
  rw [if_pos hsign]

/-- C5 witness: a single call contract with a constant unit-gamma oracle,
whose net exposure is s² > 0 at every probe spot: the root-finder returns
the lower bound 90 = 100 × 0.9, which has the smaller magnitude. -/
theorem gammaFlip_same_sign_early_return_witness :
    findTrueGammaFlip (fun _ => some ⟨0, some 1⟩) (fun _ => 1)
      [⟨100, 1/5, 1, Side.call, 0, 0⟩] 100 1 = 100 * (1 - 1/10) := by
  rw [gammaFlip_same_sign_early_return (fun _ => some ⟨0, some 1⟩)
    (fun _ => 1) [⟨100, 1/5, 1, Side.call, 0, 0⟩] 100 1
    (List.cons_ne_nil _ _)
    (by norm_num [calculateNetGexAtSpot, safeNum, sideSign])]
  rw [if_pos (by norm_num [calculateNetGexAtSpot, safeNum, sideSign])]

theorem flipLoop_bounds (g : ℚ → ℚ) (gexLow : ℚ) :
    ∀ (fuel : Nat) (low high : ℚ), low ≤ high →
      low ≤ flipLoop g gexLow fuel low high ∧
        flipLoop g gexLow fuel low high ≤ high := by
  intro fuel
  induction fuel with
  | zero =>
    intro low high h
    unfold flipLoop
    constructor <;> linarith
  | succ n ih =>
    intro low high h
    unfold flipLoop
    dsimp only
    have hm1 : low ≤ (low + high) / 2 := by linarith
    have hm2 : (low + high) / 2 ≤ high := by linarith
    split_ifs with h1 h2
    · exact ⟨hm1, hm2⟩
    · obtain ⟨a, b⟩ := ih low ((low + high) / 2) hm1
      exact ⟨a, le_trans b hm2⟩
    · obtain ⟨a, b⟩ := ih ((low + high) / 2) high hm2
      exact ⟨le_trans hm1 a, b⟩

/-- C10: for the empty contract set the root-finder returns the spot
unchanged; for a non-empty set and positive spot the result always lies
inside the scan window [0.9 × spot, 1.1 × spot], on every path (early
return, converged midpoint, and exhausted binary search). -/
theorem gammaFlip_within_scan_window (bs : BSModel) (rexp : ℚ → ℚ)
    (options : List ProcessedOption) (currentSpot time : ℚ) :
    (options = [] →
      findTrueGammaFlip bs rexp options currentSpot time = currentSpot) ∧
    (options ≠ [] → 0 < currentSpot →
      currentSpot * (9/10) ≤ findTrueGammaFlip bs rexp options currentSpot time ∧
        findTrueGammaFlip bs rexp options currentSpot time ≤
          currentSpot * (11/10)) := by
  constructor
  · intro h
    unfold findTrueGammaFlip
    rw [if_pos h]
  · intro hne hspot
    unfold findTrueGammaFlip
    rw [if_neg hne]
    dsimp only
    have hlh : currentSpot * (1 - 1/10) ≤ currentSpot * (1 + 1/10) := by
      nlinarith
    split_ifs with h1 h2
    · constructor <;> nlinarith
    · constructor <;> nlinarith
    · obtain ⟨a, b⟩ := flipLoop_bounds
        (fun s => calculateNetGexAtSpot bs rexp options s time)
        (calculateNetGexAtSpot bs rexp options (currentSpot * (1 - 1/10)) time)
        15 (currentSpot * (1 - 1/10)) (currentSpot * (1 + 1/10)) hlh
      constructor <;> nlinarith

/-- C10 witness: the empty set returns the spot 77 unchanged, and for a
one-contract set at spot 200 the result lies in [180, 220]. -/
theorem gammaFlip_within_scan_window_witness :
    findTrueGammaFlip (fun _ => some ⟨0, some 1⟩) (fun _ => 1) [] 77 1 = 77 ∧
    (200 * (9/10) ≤ findTrueGammaFlip (fun _ => some ⟨0, some 1⟩)
        (fun _ => 1) [⟨50, 1/5, 2, Side.put, 0, 0⟩] 200 1 ∧
      findTrueGammaFlip (fun _ => some ⟨0, some 1⟩) (fun _ => 1)
        [⟨50, 1/5, 2, Side.put, 0, 0⟩] 200 1 ≤ 200 * (11/10)) :=
  ⟨(gammaFlip_within_scan_window (fun _ => some ⟨0, some 1⟩) (fun _ => 1)
      [] 77 1).1 rfl,
    (gammaFlip_within_scan_window (fun _ => some ⟨0, some 1⟩) (fun _ => 1)
      [⟨50, 1/5, 2, Side.put, 0, 0⟩] 200 1).2 (List.cons_ne_nil _ _)
      (by norm_num)⟩

theorem mem_zip_self {R : List ℚ} : ∀ p ∈ R.zip R, p.1 = p.2 := by
  induction R with
  | nil => simp
  | cons x R ih =>
    intro p hp
    simp only [List.zip_cons_cons, List.mem_cons] at hp
    rcases hp with h | h
    · rw [h]
    · exact ih p h

theorem foldl_cov_var_diag (a : ℚ) :
    ∀ (L : List (ℚ × ℚ)), (∀ p ∈ L, p.1 = p.2) → ∀ acc : ℚ × ℚ,
      acc.1 = acc.2 →
      (L.foldl (fun acc p =>
        (acc.1 + (p.2 - a) * (p.1 - a), acc.2 + (p.2 - a) * (p.2 - a))) acc).1 =
      (L.foldl (fun acc p =>
        (acc.1 + (p.2 - a) * (p.1 - a), acc.2 + (p.2 - a) * (p.2 - a))) acc).2 := by
  intro L
  induction L with
  | nil =>
    intro _ acc h
    simpa using h
  | cons p L ih =>
    intro hmem acc h
    simp only [List.foldl_cons]
    refine ih (fun q hq => hmem q (List.mem_cons_of_mem _ hq)) _ ?_
    have hp : p.1 = p.2 := hmem p (List.mem_cons_self _ _)
    dsimp only
    rw [h, hp]

theorem betaSums_diag (l : List ℚ) :
    (betaSums (l.map (fun x => (x, x)))).1 =
      (betaSums (l.map (fun x => (x, x)))).2 := by
  unfold betaSums
  have hfst : (l.map (fun x => (x, x))).map Prod.fst = l := by
    simp [Function.comp_def]
  have hsnd : (l.map (fun x => (x, x))).map Prod.snd = l := by
    simp [Function.comp_def]
  rw [hfst, hsnd]
  dsimp only
  exact foldl_cov_var_diag (avgOf (returnsOf l)) _
    (mem_zip_self) _ rfl

/-- C8: the beta estimator returns exactly 1 on two identical price
series with at least 10 overlapping (nonzero) observations, because the
accumulated covariance equals the accumulated benchmark variance; and it
returns exactly 1 whenever the accumulated benchmark variance is 0. -/
theorem identical_series_beta_one :
    (∀ l : List ℚ, 10 ≤ l.length → (∀ x ∈ l, x ≠ 0) →
      calculateManualBeta (l.map (fun x => (x, x))) = 1) ∧
    (∀ commonData : List (ℚ × ℚ), ¬ commonData.length < 10 →
      (betaSums commonData).2 = 0 → calculateManualBeta commonData = 1) := by
  constructor
  · intro l h10 _
    unfold calculateManualBeta
    rw [if_neg (by simpa using not_lt.mpr h10)]
    dsimp only
    by_cases hz : (betaSums (l.map (fun x => (x, x)))).2 = 0
    · rw [if_pos hz]
    · rw [if_neg hz, betaSums_diag]
      exact div_self hz
  · intro commonData h10 hz
    unfold calculateManualBeta
    rw [if_neg h10]
    dsimp only
    rw [if_pos hz]

/-- C8 witness: ten identical observations 1..10 give beta exactly 1, and
a zero-variance (constant) benchmark against a varying ticker also gives
beta exactly 1. -/
theorem identical_series_beta_one_witness :
    calculateManualBeta
      ([1, 2, 3, 4, 5, 6, 7, 8, 9, 10].map (fun x => (x, x))) = 1 ∧
    calculateManualBeta
      [(1, 7), (2, 7), (4, 7), (8, 7), (16, 7), (32, 7), (64, 7), (128, 7),
        (256, 7), (512, 7)] = 1 :=
  ⟨identical_series_beta_one.1 [1, 2, 3, 4, 5, 6, 7, 8, 9, 10]
      (by norm_num) (by norm_num),
    identical_series_beta_one.2
      [(1, 7), (2, 7), (4, 7), (8, 7), (16, 7), (32, 7), (64, 7), (128, 7),
        (256, 7), (512, 7)]
      (by norm_num)
      (by norm_num [betaSums, returnsOf, avgOf, List.zip])⟩

/-- C7 (amended): the weighted-level aggregate is a pure function of the
snapshots together with the evaluation timestamp, and it depends on them
only through the time differences: shifting every expiration timestamp
and the wall-clock `nowTs` by the same amount leaves the aggregate
unchanged. (As stated — no wall-clock dependence at all — the claim is
false; see the counterexample.) -/
theorem weighted_level_translation_invariant (nowTs d : ℝ)
    (items : List (ℝ × ℝ)) :
    calculateWeightedLevel (nowTs + d) (shiftItems d items) =
      calculateWeightedLevel nowTs items := by
  unfold calculateWeightedLevel shiftItems
  rw [List.foldl_map]
  have key : ∀ (acc : ℝ × ℝ) (r : ℝ × ℝ),
      ((r.1 + d) - (nowTs + d)) = (r.1 - nowTs) := by
    intro _ r
    ring
  have hfold : List.foldl (fun (acc : ℝ × ℝ) (r : ℝ × ℝ) =>
        (acc.1 + 1 / Real.sqrt (max ((r.1 + d - (nowTs + d)) /
            (1000 * 60 * 60 * 24 * 365)) (1/365)),
          acc.2 + r.2 * (1 / Real.sqrt (max ((r.1 + d - (nowTs + d)) /
            (1000 * 60 * 60 * 24 * 365)) (1/365))))) (0, 0) items =
      List.foldl (fun (acc : ℝ × ℝ) (r : ℝ × ℝ) =>
        (acc.1 + 1 / Real.sqrt (max ((r.1 - nowTs) /
            (1000 * 60 * 60 * 24 * 365)) (1/365)),
          acc.2 + r.2 * (1 / Real.sqrt (max ((r.1 - nowTs) /
            (1000 * 60 * 60 * 24 * 365)) (1/365))))) (0, 0) items := by
    refine List.foldl_ext _ _ _ ?_
    intro acc r _
    rw [key acc r]
  exact congrArg (fun s : ℝ × ℝ => s.2 / s.1) hfold

/-- C7: FALSIFIED as stated. `calculateWeightedLevel` reads the wall
clock (`dayjs()`): over the same two snapshots — expirations at epoch
milliseconds 7,884,000,000 (0.25 years after epoch) and 31,536,000,000
(1 year after epoch) with levels 100 and 200 — a run at `nowTs = 0` gives
400/3 while a run at `nowTs = 7,391,250,000` gives 225/2, so the aggregate
depends on the time at which the computation runs. -/
theorem weighted_level_wall_clock_dependence :
    calculateWeightedLevel 0 [((7884000000 : ℝ), 100), (31536000000, 200)] ≠
      calculateWeightedLevel 7391250000
        [((7884000000 : ℝ), 100), (31536000000, 200)] := by
  have ev1 : calculateWeightedLevel 0
      [((7884000000 : ℝ), 100), (31536000000, 200)] = 400/3 := by
    unfold calculateWeightedLevel
    simp only [List.foldl_cons, List.foldl_nil]
    norm_num [max_def]
    rw [show (4:ℝ) = 2^2 by norm_num, Real.sqrt_sq (by norm_num : (0:ℝ) ≤ 2)]
    norm_num
  have ev2 : calculateWeightedLevel 7391250000
      [((7884000000 : ℝ), 100), (31536000000, 200)] = 225/2 := by
    unfold calculateWeightedLevel
    simp only [List.foldl_cons, List.foldl_nil]
    norm_num [max_def]
    rw [show (64:ℝ) = 8^2 by norm_num, show (49:ℝ) = 7^2 by norm_num,
      Real.sqrt_sq (by norm_num : (0:ℝ) ≤ 8),
      Real.sqrt_sq (by norm_num : (0:ℝ) ≤ 7)]
    norm_num
  rw [ev1, ev2]
  norm_num

/-- C3: FALSIFIED as stated. The top band is capped at `high + 20`
(here 130 for support 100, resistance 110, current price 105), so the
positive price 200 lies in none of the six bands: they are not exhaustive
over (0, ∞). -/
theorem recommendation_bands_not_exhaustive :
    (0 : ℚ) < 200 ∧
      (generateRecommendations 100 110 105).countP (inBand 200) = 0 := by
  constructor
  · norm_num
  · norm_num [generateRecommendations, recNormalize, inBand, min_def, max_def,
      List.countP_cons, List.countP_nil]

/-- C3 (amended): the six bands are always contiguous and ordered
(`band.min = previousBand.max` for every adjacent pair); for a positive
current price and a non-negative normalized low, every price in
`(0, high + 20)` lies in exactly one band (half-open `[min, max)`
reading). Prices ≥ `high + 20` lie in no band, so the partition covers
`(0, high + 20)` rather than `(0, ∞)`. -/
theorem recommendation_bands_partition (support resistance currentPrice : ℚ) :
    List.Chain' (fun a b => b.min = a.max)
      (generateRecommendations support resistance currentPrice) ∧
    (0 < currentPrice → 0 ≤ (recNormalize support resistance currentPrice).1 →
      ∀ p : ℚ, 0 < p →
        p < (recNormalize support resistance currentPrice).2 + 20 →
        (generateRecommendations support resistance currentPrice).countP
          (inBand p) = 1) := by
  constructor
  · unfold generateRecommendations
    dsimp only
    simp [List.chain'_cons]
  · intro hcp hlow p hp0 htop
    have hwidth : currentPrice * (2/100) ≤
        (recNormalize support resistance currentPrice).2 -
          (recNormalize support resistance currentPrice).1 := by
      unfold recNormalize
      by_cases h : max support resistance - min support resistance <
          currentPrice * (2/100)
      · rw [if_pos h]
        dsimp only
        ring_nf
        linarith
      · rw [if_neg h]
        dsimp only
        linarith [not_lt.mp h]
    unfold generateRecommendations inBand
    dsimp only
    simp only [List.countP_cons, List.countP_nil, decide_eq_true_eq]
    generalize hLg : (recNormalize support resistance currentPrice).1 = L at hlow hwidth ⊢
    generalize hHg : (recNormalize support resistance currentPrice).2 = H at htop hwidth ⊢
    have hrange : 0 < H - L :=
      lt_of_lt_of_le (mul_pos hcp (by norm_num)) hwidth
    rcases lt_or_le p (L * (97/100)) with d1 | d1
    · rw [if_pos (show (0:ℚ) ≤ p ∧ p < L * (97/100) from ⟨le_of_lt hp0, d1⟩),
        if_neg (show ¬ (L * (97/100) ≤ p ∧ p < L) from by rintro ⟨ha, hb⟩; linarith),
        if_neg (show ¬ (L ≤ p ∧ p < (L + H)/2 - (H - L) * (1/10)) from by rintro ⟨ha, hb⟩; linarith),
        if_neg (show ¬ ((L + H)/2 - (H - L) * (1/10) ≤ p ∧ p < (L + H)/2 + (H - L) * (1/10)) from by rintro ⟨ha, hb⟩; linarith),
        if_neg (show ¬ ((L + H)/2 + (H - L) * (1/10) ≤ p ∧ p < H) from by rintro ⟨ha, hb⟩; linarith),
        if_neg (show ¬ (H ≤ p ∧ p < H + 20) from by rintro ⟨ha, hb⟩; linarith)]
    · rcases lt_or_le p L with d2 | d2
      · rw [if_neg (show ¬ ((0:ℚ) ≤ p ∧ p < L * (97/100)) from by rintro ⟨ha, hb⟩; linarith),
          if_pos (show L * (97/100) ≤ p ∧ p < L from ⟨d1, d2⟩),
          if_neg (show ¬ (L ≤ p ∧ p < (L + H)/2 - (H - L) * (1/10)) from by rintro ⟨ha, hb⟩; linarith),
          if_neg (show ¬ ((L + H)/2 - (H - L) * (1/10) ≤ p ∧ p < (L + H)/2 + (H - L) * (1/10)) from by rintro ⟨ha, hb⟩; linarith),
          if_neg (show ¬ ((L + H)/2 + (H - L) * (1/10) ≤ p ∧ p < H) from by rintro ⟨ha, hb⟩; linarith),
          if_neg (show ¬ (H ≤ p ∧ p < H + 20) from by rintro ⟨ha, hb⟩; linarith)]
      · rcases lt_or_le p ((L + H)/2 - (H - L) * (1/10)) with d3 | d3
        · rw [if_neg (show ¬ ((0:ℚ) ≤ p ∧ p < L * (97/100)) from by rintro ⟨ha, hb⟩; linarith),
            if_neg (show ¬ (L * (97/100) ≤ p ∧ p < L) from by rintro ⟨ha, hb⟩; linarith),
            if_pos (show L ≤ p ∧ p < (L + H)/2 - (H - L) * (1/10) from ⟨d2, d3⟩),
            if_neg (show ¬ ((L + H)/2 - (H - L) * (1/10) ≤ p ∧ p < (L + H)/2 + (H - L) * (1/10)) from by rintro ⟨ha, hb⟩; linarith),
            if_neg (show ¬ ((L + H)/2 + (H - L) * (1/10) ≤ p ∧ p < H) from by rintro ⟨ha, hb⟩; linarith),
            if_neg (show ¬ (H ≤ p ∧ p < H + 20) from by rintro ⟨ha, hb⟩; linarith)]
        · rcases lt_or_le p ((L + H)/2 + (H - L) * (1/10)) with d4 | d4
          · rw [if_neg (show ¬ ((0:ℚ) ≤ p ∧ p < L * (97/100)) from by rintro ⟨ha, hb⟩; linarith),
              if_neg (show ¬ (L * (97/100) ≤ p ∧ p < L) from by rintro ⟨ha, hb⟩; linarith),
              if_neg (show ¬ (L ≤ p ∧ p < (L + H)/2 - (H - L) * (1/10)) from by rintro ⟨ha, hb⟩; linarith),
              if_pos (show (L + H)/2 - (H - L) * (1/10) ≤ p ∧ p < (L + H)/2 + (H - L) * (1/10) from ⟨d3, d4⟩),
              if_neg (show ¬ ((L + H)/2 + (H - L) * (1/10) ≤ p ∧ p < H) from by rintro ⟨ha, hb⟩; linarith),
              if_neg (show ¬ (H ≤ p ∧ p < H + 20) from by rintro ⟨ha, hb⟩; linarith)]
          · rcases lt_or_le p H with d5 | d5
            · rw [if_neg (show ¬ ((0:ℚ) ≤ p ∧ p < L * (97/100)) from by rintro ⟨ha, hb⟩; linarith),
                if_neg (show ¬ (L * (97/100) ≤ p ∧ p < L) from by rintro ⟨ha, hb⟩; linarith),
                if_neg (show ¬ (L ≤ p ∧ p < (L + H)/2 - (H - L) * (1/10)) from by rintro ⟨ha, hb⟩; linarith),
                if_neg (show ¬ ((L + H)/2 - (H - L) * (1/10) ≤ p ∧ p < (L + H)/2 + (H - L) * (1/10)) from by rintro ⟨ha, hb⟩; linarith),
                if_pos (show (L + H)/2 + (H - L) * (1/10) ≤ p ∧ p < H from ⟨d4, d5⟩),
                if_neg (show ¬ (H ≤ p ∧ p < H + 20) from by rintro ⟨ha, hb⟩; linarith)]
            · rw [if_neg (show ¬ ((0:ℚ) ≤ p ∧ p < L * (97/100)) from by rintro ⟨ha, hb⟩; linarith),
                if_neg (show ¬ (L * (97/100) ≤ p ∧ p < L) from by rintro ⟨ha, hb⟩; linarith),
                if_neg (show ¬ (L ≤ p ∧ p < (L + H)/2 - (H - L) * (1/10)) from by rintro ⟨ha, hb⟩; linarith),
                if_neg (show ¬ ((L + H)/2 - (H - L) * (1/10) ≤ p ∧ p < (L + H)/2 + (H - L) * (1/10)) from by rintro ⟨ha, hb⟩; linarith),
                if_neg (show ¬ ((L + H)/2 + (H - L) * (1/10) ≤ p ∧ p < H) from by rintro ⟨ha, hb⟩; linarith),
                if_pos (show H ≤ p ∧ p < H + 20 from ⟨d5, htop⟩)]

/-- C3 witness: support 100, resistance 110, current price 105; the
bands are contiguous and the price 105 lies in exactly one band. -/
theorem recommendation_bands_partition_witness :
    List.Chain' (fun a b => b.min = a.max)
      (generateRecommendations 100 110 105) ∧
    (generateRecommendations 100 110 105).countP (inBand 105) = 1 :=
  ⟨(recommendation_bands_partition 100 110 105).1,
    (recommendation_bands_partition 100 110 105).2 (by norm_num)
      (by norm_num [recNormalize, min_def, max_def]) 105 (by norm_num)
      (by norm_num [recNormalize, min_def, max_def])⟩

end QQQ
